import Mathlib

/-!
Verification of the call-conversation orchestration core of the
`calling-ai` repository, shallowly embedded in Lean.

JavaScript strings are modelled as lists of Unicode code points
(`List Nat`); `str` converts a Lean string literal to that form.
-/

namespace CallingAI

/-- JS strings, modelled as lists of Unicode code points. -/
abbrev Str := List Nat

/-- Conversion from a Lean string literal to the code-point model. -/
def str (s : String) : Str := s.toList.map Char.toNat

/-- Model of `String.prototype.toLowerCase` on one ASCII code point. -/
def lowerCode (n : Nat) : Nat := if 65 ≤ n ∧ n ≤ 90 then n + 32 else n

/-- Model of `String.prototype.toLowerCase` (ASCII range). -/
def toLowerStr (s : Str) : Str := s.map lowerCode

/-- Model of `haystack.includes(needle)`: substring test on code-point lists. -/
def containsSub (needle haystack : Str) : Bool :=
  (haystack.tails).any (fun t => needle.isPrefixOf t)

/-- Model of `String.prototype.trim`: strip leading and trailing whitespace
(space, tab, line feed, carriage return). -/
def trimStr (s : Str) : Str :=
  let ws : Nat → Bool := fun n => n = 32 || n = 9 || n = 10 || n = 13
  ((s.dropWhile ws).reverse.dropWhile ws).reverse

/-- JS truthiness of an optional string field: `null` and the empty
string are falsy, every other string is truthy. -/
def truthyS : Option Str → Bool
  | none => false
  | some s => !s.isEmpty

/-- The two speakers of a conversation turn
(`speaker: 'agent' | 'customer'` in the source). -/
inductive Speaker where
  | agent
  | customer
deriving DecidableEq

/-- One entry of `conversationHistory`:
`\x7b speaker, message, timestamp \x7d` as pushed by the source. -/
structure Turn where
  speaker : Speaker
  message : Str
  timestamp : Nat
deriving DecidableEq

/-- Sentiment analysis result (`openaiService.analyzeSentiment`):
the `overall` field is the string compared by `Lead.updateScore`. -/
structure Sentiment where
  overall : Str
  score : Int
deriving DecidableEq

/-- Output record of `openaiService.extractInformation`: every field is either
extracted text or `null` (here `none`). -/
structure ExtractedInfo where
  budget : Option Str := none
  timeline : Option Str := none
  decisionMaker : Option Bool := none
  painPoints : Option Str := none
  interests : Option Str := none
  objections : Option Str := none
  nextSteps : Option Str := none
deriving DecidableEq

/-- The empty signals record: every extraction field absent. -/
def emptyInfo : ExtractedInfo := {}

/-- The `outcome` enumeration of the `Call` schema
(`src/models/Call.js`). -/
def callOutcomeEnum : List Str :=
  [str "sale", str "interested", str "not-interested", str "callback",
   str "voicemail", str "wrong-number", str "no-answer"]

/-- Number of customer turns in a conversation history
(`conversationHistory.filter(msg => msg.speaker === 'customer').length`). -/
def customerTurnCount (history : List Turn) : Nat :=
  (history.filter (fun msg => msg.speaker = Speaker.customer)).length

/-- Embedding of `ConversationService.determineCallOutcome(conversationHistory,
extractedInfo, reason)` from `twilioService.js`, translated clause by
clause: customer-requested end, then truthy `nextSteps`/`interests`,
then a callback mention in `nextSteps`, then the customer-turn count. -/
def determineCallOutcome (conversationHistory : List Turn)
    (extractedInfo : ExtractedInfo) (reason : Str) : Str :=
  if reason = str "customer-requested" then
    str "not-interested"
  else if truthyS extractedInfo.nextSteps || truthyS extractedInfo.interests then
    str "interested"
  else if truthyS extractedInfo.nextSteps &&
      containsSub (str "callback") (extractedInfo.nextSteps.getD []) then
    str "callback"
  else if customerTurnCount conversationHistory < 2 then
    str "no-answer"
  else if 5 < customerTurnCount conversationHistory then
    str "interested"
  else
    str "not-interested"

/-- The fixed termination vocabulary of
`ConversationService.shouldEndCall`. -/
def terminationPhrases : List Str :=
  [str "remove me", str "take me off", str "do not call",
   str "not interested", str "stop calling", str "unsubscribe",
   str "wrong number", str "goodbye", str "hang up", str "end call"]

/-- Embedding of `ConversationService.shouldEndCall(customerSpeech)`: lowercase the
speech, then test whether any termination phrase occurs as a substring. -/
def shouldEndCall (customerSpeech : Str) : Bool :=
  terminationPhrases.any (fun phrase => containsSub phrase (toLowerStr customerSpeech))

/-- The keyword buckets of `ConversationService.updateConversationStep`,
in the iteration order of the source object literal. -/
def stepKeywords : List (Str × List Str) :=
  [(str "qualification", [str "qualify", str "budget", str "timeline", str "decision"]),
   (str "presentation", [str "solution", str "product", str "service", str "benefit"]),
   (str "objection", [str "concern", str "but", str "however", str "objection"]),
   (str "closing", [str "next step", str "schedule", str "sign up", str "purchase"])]

/-- Embedding of `ConversationService.updateConversationStep`: the first bucket with
a keyword occurring in the lowercased response wins; no match leaves the
current step unchanged. -/
def updateConversationStep (currentStep : Str) (response : Str) : Str :=
  match stepKeywords.find?
      (fun bucket => bucket.2.any (fun k => containsSub k (toLowerStr response))) with
  | some bucket => bucket.1
  | none => currentStep

/-- Fuel-indexed worker for `replaceAll`: scans the text left to right,
replacing each non-overlapping occurrence of the pattern, exactly like a
global literal-regex `String.prototype.replace`. The fuel is the text
length, enough because every step consumes at least one code point. -/
def replaceAllAux (pat rep : Str) : Nat → Str → Str
  | _, [] => []
  | 0, s => s
  | fuel + 1, c :: cs =>
    if pat.isPrefixOf (c :: cs) ∧ pat ≠ [] then
      rep ++ replaceAllAux pat rep fuel (cs.drop (pat.length - 1))
    else
      c :: replaceAllAux pat rep fuel cs

/-- Model of `text.replace(/pat/g, rep)` for a literal pattern `pat`
(the dollar-escape forms of JS replacement strings never occur in the
source data and are not modelled). -/
def replaceAll (pat rep text : Str) : Str :=
  replaceAllAux pat rep text.length text

/-- Lead statuses of the `Lead` schema enum
(`src/models/Lead.js`). -/
def leadStatusEnum : List Str :=
  [str "new", str "contacted", str "qualified", str "interested",
   str "not-interested", str "callback", str "converted", str "do-not-call"]

/-- The lead record (`src/models/Lead.js`), restricted to the fields the
orchestration core reads or writes. Statuses and the timeframe are the
schema enum strings; optional text fields are `none` when absent. -/
structure Lead where
  id : Nat
  firstName : Str
  lastName : Option Str := none
  phoneNumber : Str := []
  company : Option Str := none
  jobTitle : Option Str := none
  status : Str := str "new"
  score : Int := 50
  totalCalls : Nat := 0
  lastCallDate : Option Nat := none
  nextCallDate : Option Nat := none
  topics : List Str := []
  objections : List Str := []
  budgetMin : Option Str := none
  decisionMaker : Bool := false
  timeframe : Str := str "no-timeline"
  doNotCall : Bool := false
  doNotCallReason : Option Str := none
deriving DecidableEq

namespace Lead

/-- Virtual `fullName` of the lead schema:
first name, a space, the last name when present, then trimmed. -/
def fullName (l : Lead) : Str :=
  trimStr (l.firstName ++ [32] ++ l.lastName.getD [])

/-- Virtual `isCallable` of the lead schema: false once the do-not-call
flag is set or the status is do-not-call or converted. -/
def isCallable (l : Lead) : Bool :=
  if l.doNotCall then false
  else if l.status = str "do-not-call" then false
  else if l.status = str "converted" then false
  else true

/-- Embedding of `leadSchema.methods.updateScore(callOutcome, sentiment)`:
the switch sets the status and the base score change, sentiment polarity
adds or subtracts five, and the score is clamped to zero..one hundred.
Call tracking (`totalCalls`, `lastCallDate`) is updated last; `now` is
the wall-clock instant of the update (hours, see `Time` remarks). -/
def updateScore (l : Lead) (callOutcome : Str) (sentiment : Option Sentiment)
    (now : Nat) : Lead :=
  let (baseChange, l1) : Int × Lead :=
    if callOutcome = str "sale" then
      (30, { l with status := str "converted" })
    else if callOutcome = str "interested" then
      (20, { l with status := str "interested" })
    else if callOutcome = str "callback" then
      (10, { l with status := str "callback" })
    else if callOutcome = str "not-interested" then
      (-15, { l with status := str "not-interested" })
    else if callOutcome = str "wrong-number" then
      (-30, { l with
              status := str "do-not-call",
              doNotCall := true,
              doNotCallReason := some (str "Wrong number") })
    else
      (-5, l)
  let scoreChange : Int := baseChange +
    match sentiment with
    | some sn =>
      if sn.overall = str "positive" then 5
      else if sn.overall = str "negative" then -5
      else 0
    | none => 0
  { l1 with
    score := max 0 (min 100 (l1.score + scoreChange)),
    totalCalls := l1.totalCalls + 1,
    lastCallDate := some now }

/-- Embedding of `leadSchema.methods.scheduleNextCall(retryDelayHours)`.
Wall-clock time is modelled in whole hours since an epoch, so "next day
at nine" is the start of the next day plus nine hours, and adding retry
hours is plain addition (JS `setHours` normalizes overflow the same way). -/
def scheduleNextCall (l : Lead) (retryDelayHours : Nat) (now : Nat) : Lead :=
  if l.status = str "callback" then
    { l with nextCallDate := some ((now / 24 + 1) * 24 + 9) }
  else if l.status = str "new" ∨ l.status = str "contacted" then
    { l with nextCallDate := some (now + retryDelayHours) }
  else
    l

end Lead

/-- Embedding of `ConversationService.replacePlaceholders(text, lead)`:
five chained global replaces, in source order; unknown placeholders are
not mentioned by the source and therefore pass through untouched. -/
def replacePlaceholders (text : Str) (lead : Lead) : Str :=
  let t1 := replaceAll (str "\x7bfirstName\x7d") lead.firstName text
  let t2 := replaceAll (str "\x7blastName\x7d") (lead.lastName.getD []) t1
  let t3 := replaceAll (str "\x7bfullName\x7d") lead.fullName t2
  let t4 := replaceAll (str "\x7bcompany\x7d") (lead.company.getD []) t3
  replaceAll (str "\x7bjobTitle\x7d") (lead.jobTitle.getD []) t4

/-- Decides whether a rendered string still contains a literal
placeholder: an opening brace with a closing brace somewhere after it. -/
def hasPlaceholder (s : Str) : Bool :=
  s.tails.any (fun t =>
    match t with
    | 123 :: rest => rest.any (fun c => c = 125)
    | _ => false)

/-- Campaign record, restricted to the script fields the orchestration
core reads (`campaign.script?.opening`, `campaign.script?.closing`). -/
structure Campaign where
  id : Nat
  scriptOpening : Option Str := none
  scriptClosing : Option Str := none
deriving DecidableEq

/-- The `callContext` snapshot computed once at initialization. -/
structure CallContext where
  callNumber : Nat
  timeOfDay : Str
deriving DecidableEq

/-- Embedding of `ConversationService.getTimeOfDay`. Wall-clock time is
modelled in whole hours since an epoch, so the current hour of day is
the remainder modulo twenty-four. -/
def getTimeOfDay (now : Nat) : Str :=
  if now % 24 < 12 then str "morning"
  else if now % 24 < 17 then str "afternoon"
  else str "evening"

/-- The per-call conversation context stored in
`activeConversations` (`initializeConversation` in the source). -/
structure Conv where
  callSid : Str
  leadId : Nat
  campaignId : Nat
  lead : Lead
  campaign : Campaign
  conversationHistory : List Turn
  currentStep : Str
  startTime : Nat
  callContext : CallContext
deriving DecidableEq

/-- The persisted call document (`src/models/Call.js`), restricted to
the fields written by the orchestration core. Fields that the schema
defaults on insert keep their schema defaults here. -/
structure CallRecord where
  callSid : Str
  campaignId : Option Nat := none
  leadId : Option Nat := none
  phoneNumber : Option Str := none
  status : Str := str "initiated"
  startedAt : Option Nat := none
  endedAt : Option Nat := none
  duration : Nat := 0
  conversation : List Turn := []
  sentimentR : Option Sentiment := none
  outcome : Str := str "no-answer"
  notes : Option Str := none
deriving DecidableEq

/-- Association-list lookup, first binding wins (JS `Map.prototype.get`
and `findOne` both see at most one binding per key). -/
def getA {α : Type} [DecidableEq α] {β : Type} (m : List (α × β)) (k : α) : Option β :=
  (m.find? (fun p => p.1 = k)).map (fun p => p.2)

/-- Association-list write: replace the first binding for the key, or
append a new one (JS `Map.prototype.set`). -/
def setA {α : Type} [DecidableEq α] {β : Type} (m : List (α × β)) (k : α) (v : β) :
    List (α × β) :=
  match m with
  | [] => [(k, v)]
  | p :: rest => if p.1 = k then (k, v) :: rest else p :: setA rest k v

/-- Association-list delete (JS `Map.prototype.delete`); removing every
binding for the key is observationally the map behaviour, since lookup
and write only ever see the first binding. -/
def eraseA {α : Type} [DecidableEq α] {β : Type} (m : List (α × β)) (k : α) :
    List (α × β) :=
  m.filter (fun p => p.1 ≠ k)

/-- The in-memory and persisted state touched by the conversation
service: the `activeConversations` map, the `calls` collection (one
entry per Mongo document), and the `leads` collection keyed by lead id. -/
structure State where
  activeConversations : List (Str × Conv) := []
  calls : List CallRecord := []
  leads : List (Nat × Lead) := []
deriving DecidableEq

/-- The state with no active conversation and empty collections. -/
def emptyState : State := {}

/-- External collaborators of the core (`openaiService`), supplied as
pure oracles: the response generator (with `none` for a failure that the
source recovers from), sentiment scoring, signal extraction, and call
summarization. -/
structure Env where
  generateResponse : List Turn → Option Str
  analyzeSentiment : List Turn → Sentiment
  extractInformation : List Turn → ExtractedInfo
  generateCallSummary : List Turn → Str → Nat → Str

/-- Outbound TwiML, reduced to the two shapes the conversation service
produces: a gather prompt that keeps the call open, and a final message
followed by hangup (`generateTwiML` with `gatherInput` versus
`generateHangupTwiML`). -/
inductive TwiML where
  | gather (message : Str)
  | hangup (message : Str)
deriving DecidableEq

/-- Result of the customer-turn handler. The `response` constructor
wraps the TwiML the source returns in every path. The
`unknownCallError` constructor is modelled from the spec: it is the
`UnknownCallError` of the error taxonomy (spec section seven), included
so that the specified failure mode is expressible; the source never
constructs it. -/
inductive SpeechResult where
  | response (twiml : TwiML)
  | unknownCallError
deriving DecidableEq

/-- Result of initialization. The `ok` constructor wraps the created
context, the source's only behaviour. The `duplicateCallError`
constructor is modelled from the spec: it is the `DuplicateCallError`
of the error taxonomy (spec section seven), included so that the
specified failure mode is expressible; the source never constructs it. -/
inductive InitResult where
  | ok (ctx : Conv)
  | duplicateCallError
deriving DecidableEq

/-- The conversation context built by
`ConversationService.initializeConversation`: empty history, opening
step, the wall-clock start instant, and the derived call context. -/
def mkConversationContext (callSid : Str) (lead : Lead) (campaign : Campaign)
    (now : Nat) : Conv :=
  { callSid := callSid
    leadId := lead.id
    campaignId := campaign.id
    lead := lead
    campaign := campaign
    conversationHistory := []
    currentStep := str "opening"
    startTime := now
    callContext := { callNumber := lead.totalCalls + 1, timeOfDay := getTimeOfDay now } }

/-- Embedding of `ConversationService.initializeConversation(callSid,
lead, campaign)`: build the context and write it into the active map
unconditionally (`Map.prototype.set`), returning the context. -/
def initializeConversation (st : State) (callSid : Str) (lead : Lead)
    (campaign : Campaign) (now : Nat) : State × InitResult :=
  let ctx := mkConversationContext callSid lead campaign now
  ({ st with activeConversations := setA st.activeConversations callSid ctx },
   InitResult.ok ctx)

/-- Split on commas and trim each piece:
`s.split(',').map(t => t.trim())` in the source. -/
def splitTrim (s : Str) : List Str :=
  (s.splitOn 44).map trimStr

/-- Embedding of `ConversationService.updateLeadFromConversation`:
update score and status, copy extracted facts when truthy, merge
interests and objections into the preference history, and schedule the
next call for callback and interested outcomes. -/
def updateLeadFromConversation (lead : Lead) (extractedInfo : ExtractedInfo)
    (outcome : Str) (sentiment : Sentiment) (now : Nat) : Lead :=
  let l1 := lead.updateScore outcome (some sentiment) now
  let l2 := if truthyS extractedInfo.budget then
      { l1 with budgetMin := extractedInfo.budget } else l1
  let l3 := if truthyS extractedInfo.timeline then
      { l2 with timeframe := extractedInfo.timeline.getD [] } else l2
  let l4 := match extractedInfo.decisionMaker with
    | some b => { l3 with decisionMaker := b }
    | none => l3
  let l5 := if truthyS extractedInfo.interests then
      { l4 with topics := l4.topics ++ splitTrim (extractedInfo.interests.getD []) }
    else l4
  let l6 := if truthyS extractedInfo.objections then
      { l5 with objections := l5.objections ++ splitTrim (extractedInfo.objections.getD []) }
    else l5
  if outcome = str "callback" then l6.scheduleNextCall 24 now
  else if outcome = str "interested" then l6.scheduleNextCall 72 now
  else l6

/-- The summary value returned by `endConversation` (the Mongo document
id it also returns is not modelled). -/
structure EndSummary where
  outcome : Str
  duration : Nat
  sentimentR : Sentiment
  extractedInfo : ExtractedInfo
deriving DecidableEq

/-- Embedding of `ConversationService.endConversation(callSid, reason)`.
A missing conversation returns the state unchanged with no summary
(the source logs a warning and returns null). Otherwise: analyze
sentiment, extract signals, resolve the outcome, insert a new completed
call document, apply the lead feedback, and delete the active entry.
Durations are in seconds, from the hour-resolution clock. The
`campaign.updateStats()` call recomputes aggregate campaign statistics
from the stored calls and carries no per-call state, so it is not
modelled. -/
def endConversation (env : Env) (st : State) (callSid reason : Str) (now : Nat) :
    State × Option EndSummary :=
  match getA st.activeConversations callSid with
  | none => (st, none)
  | some conversation =>
    let endTime := now
    let duration := (endTime - conversation.startTime) * 3600
    let sentiment := env.analyzeSentiment conversation.conversationHistory
    let extractedInfo := env.extractInformation conversation.conversationHistory
    let outcome := determineCallOutcome conversation.conversationHistory extractedInfo reason
    let record : CallRecord :=
      { callSid := callSid
        campaignId := some conversation.campaignId
        leadId := some conversation.leadId
        phoneNumber := some conversation.lead.phoneNumber
        status := str "completed"
        startedAt := some conversation.startTime
        endedAt := some endTime
        duration := duration
        conversation := conversation.conversationHistory
        sentimentR := some sentiment
        outcome := outcome
        notes := some (env.generateCallSummary conversation.conversationHistory outcome duration) }
    let lead1 := updateLeadFromConversation conversation.lead extractedInfo outcome sentiment now
    ({ activeConversations := eraseA st.activeConversations callSid
       calls := st.calls ++ [record]
       leads := setA st.leads conversation.leadId lead1 },
     some { outcome := outcome, duration := duration, sentimentR := sentiment,
            extractedInfo := extractedInfo })

/-- Upsert used by `saveConversationState`:
`Call.findOneAndUpdate(\x7bcallSid\x7d, \x7bconversation, status:
'in-progress'\x7d, \x7bupsert: true\x7d)` — update the first document
with this call sid, or insert a fresh one with schema defaults. -/
def upsertCallConversation (calls : List CallRecord) (callSid : Str)
    (history : List Turn) : List CallRecord :=
  match calls with
  | [] => [{ callSid := callSid, conversation := history, status := str "in-progress" }]
  | r :: rest =>
    if r.callSid = callSid then
      { r with conversation := history, status := str "in-progress" } :: rest
    else
      r :: upsertCallConversation rest callSid history

/-- Embedding of `ConversationService.saveConversationState`. -/
def saveConversationState (st : State) (conversation : Conv) : State :=
  { st with calls := (upsertCallConversation st.calls conversation.callSid
      conversation.conversationHistory) }

/-- Embedding of `ConversationService.generateAIResponse`: the external
generator response, or the fixed fallback utterance when the generator
fails (the catch branch of the source). -/
def generateAIResponse (env : Env) (history : List Turn) : Str :=
  (env.generateResponse history).getD (str "I understand. Can you tell me more about that?")

/-- Result of the first half of `handleCustomerSpeech`, up to the
suspension point where the generator is awaited. -/
inductive PreResult where
  | noConv
  | ended (closing : Str)
  | awaitingAI (conversation : Conv)
deriving DecidableEq

/-- First half of `ConversationService.handleCustomerSpeech`, up to the
`await generateAIResponse` suspension point: look up the conversation
(absent means the early hangup return), push the customer turn, and on
a termination phrase run `endConversation` and answer the closing line
of the campaign script, default closing otherwise. -/
def handleSpeechPre (env : Env) (st : State) (callSid customerSpeech : Str)
    (now : Nat) : State × PreResult :=
  match getA st.activeConversations callSid with
  | none => (st, PreResult.noConv)
  | some conversation =>
    let conv1 := { conversation with
      conversationHistory := conversation.conversationHistory ++
        [({ speaker := Speaker.customer, message := customerSpeech, timestamp := now } : Turn)] }
    let st1 := { st with activeConversations := setA st.activeConversations callSid conv1 }
    if shouldEndCall customerSpeech then
      let st2 := (endConversation env st1 callSid (str "customer-requested") now).1
      (st2, PreResult.ended (conv1.campaign.scriptClosing.getD
        (str "Thank you for your time. Goodbye!")))
    else
      (st1, PreResult.awaitingAI conv1)

/-- Second half of `ConversationService.handleCustomerSpeech`, resumed
after the generator response arrives: push the agent turn onto the
conversation object held by the handler, update the step, and persist
via `saveConversationState`. The handler holds a reference to the
mutable conversation object, so the active map is updated only where an
entry for the call sid is still present (the source mutates the shared
object; a deleted entry stays deleted). -/
def handleSpeechPost (st : State) (conversation : Conv) (aiResponse : Str)
    (now : Nat) : State × Str :=
  let conv2 := { conversation with
    conversationHistory := conversation.conversationHistory ++
      [({ speaker := Speaker.agent, message := aiResponse, timestamp := now } : Turn)] }
  let conv3 := { conv2 with
    currentStep := updateConversationStep conv2.currentStep aiResponse }
  let active1 :=
    if (getA st.activeConversations conversation.callSid).isSome then
      setA st.activeConversations conversation.callSid conv3
    else
      st.activeConversations
  let st2 := saveConversationState { st with activeConversations := active1 } conv3
  (st2, aiResponse)

/-- Embedding of `ConversationService.handleCustomerSpeech(callSid,
customerSpeech)` under the sequential (race-free) schedule: the two
halves composed, with the generator answered in between. An unknown
call sid yields the early hangup TwiML; a termination phrase yields the
closing hangup TwiML; otherwise the agent response is spoken with a
gather. -/
def handleCustomerSpeech (env : Env) (st : State) (callSid customerSpeech : Str)
    (now : Nat) : State × SpeechResult :=
  match handleSpeechPre env st callSid customerSpeech now with
  | (st1, PreResult.noConv) =>
    (st1, SpeechResult.response (TwiML.hangup (str "Thank you for calling. Goodbye!")))
  | (st1, PreResult.ended closing) =>
    (st1, SpeechResult.response (TwiML.hangup closing))
  | (st1, PreResult.awaitingAI conv1) =>
    let aiResponse := generateAIResponse env conv1.conversationHistory
    let (st2, msg) := handleSpeechPost st1 conv1 aiResponse now
    (st2, SpeechResult.response (TwiML.gather msg))

/-- The race interleaving of spec section five: a provider end signal
for the same call sid is processed (running `endConversation`) while
the customer-turn handler is suspended awaiting the generator, after
which the handler resumes with the late response. Every step is an
embedded source operation; only the schedule is the scenario's. -/
def raceScenario (env : Env) (st : State) (callSid customerSpeech : Str)
    (t1 t2 t3 : Nat) : State :=
  match handleSpeechPre env st callSid customerSpeech t1 with
  | (st1, PreResult.awaitingAI conv1) =>
    let st2 := (endConversation env st1 callSid (str "completed") t2).1
    (handleSpeechPost st2 conv1 (generateAIResponse env conv1.conversationHistory) t3).1
  | (st1, _) => st1

/-- Persisted call documents for a call sid whose status is completed
(the records written by `endConversation`). -/
def completedCount (calls : List CallRecord) (callSid : Str) : Nat :=
  (calls.filter (fun r => r.callSid == callSid && r.status == str "completed")).length

/-! Concrete fixtures used by witnesses and counterexamples. -/

/-- Lead fixture of the placeholder example: first name Ana, last name Lee. -/
def anaLead : Lead :=
  { id := 1, firstName := str "Ana", lastName := some (str "Lee") }

/-- Lead fixture with every optional contact field absent. -/
def bareLead : Lead :=
  { id := 2, firstName := str "Bo" }

/-- Lead fixture for the feedback example, score at the default fifty. -/
def demoLead : Lead :=
  { id := 3, firstName := str "Sam" }

/-- Campaign fixture with no script overrides. -/
def plainCampaign : Campaign := { id := 10 }

/-- Deterministic external collaborators for concrete runs: a fixed
generator utterance, neutral sentiment, empty extraction, fixed summary. -/
def testEnv : Env :=
  { generateResponse := fun _ => some (str "Our product has a great benefit.")
    analyzeSentiment := fun _ => { overall := str "neutral", score := 0 }
    extractInformation := fun _ => emptyInfo
    generateCallSummary := fun _ _ _ => str "summary" }

/-- A concrete customer turn. -/
def helloTurn : Turn :=
  { speaker := Speaker.customer, message := str "hello", timestamp := 0 }

/-! Helper lemmas. -/

/-- Lowercasing one code point is idempotent. -/
theorem lowerCode_idem (n : Nat) : lowerCode (lowerCode n) = lowerCode n := by
  unfold lowerCode
  split_ifs <;> omega

/-- Lowercasing a string is idempotent. -/
theorem toLowerStr_idem (s : Str) : toLowerStr (toLowerStr s) = toLowerStr s := by
  induction s with
  | nil => rfl
  | cons a t ih =>
    simp only [toLowerStr, List.map_cons, List.map_map] at ih ⊢
    rw [lowerCode_idem]
    exact congrArg (lowerCode a :: ·) ih

/-! Claim theorems. -/

/-- Claim C5 (confirmed). The termination detector is a pure
case-insensitive substring match against the fixed vocabulary: its
verdict on any utterance equals its verdict on the lowercased
utterance; the removal request from the spec example is detected and
the interested reply from the spec example is not. -/
theorem shouldEndCall_case_insensitive :
    (∀ s : Str, shouldEndCall s = shouldEndCall (toLowerStr s)) ∧
    shouldEndCall (str "please remove me from your list") = true ∧
    shouldEndCall (str "I" ++ [39] ++ str "m interested, tell me more") = false := by
  refine ⟨?_, by decide, by decide⟩
  intro s
  simp only [shouldEndCall, toLowerStr_idem]

/-- Claim C1 (confirmed). Outcome-resolver priority: a
customer-requested end resolves to not-interested for every transcript
and signals record; and with the empty signals record and any other end
reason, fewer than two customer turns resolve to no-answer, more than
five to interested, and any other count to not-interested. -/
theorem determineCallOutcome_priority :
    (∀ (history : List Turn) (extractedInfo : ExtractedInfo),
      determineCallOutcome history extractedInfo (str "customer-requested") =
        str "not-interested") ∧
    (∀ (history : List Turn) (reason : Str),
      reason ≠ str "customer-requested" →
      (customerTurnCount history < 2 →
        determineCallOutcome history emptyInfo reason = str "no-answer") ∧
      (5 < customerTurnCount history →
        determineCallOutcome history emptyInfo reason = str "interested") ∧
      (2 ≤ customerTurnCount history → customerTurnCount history ≤ 5 →
        determineCallOutcome history emptyInfo reason = str "not-interested")) := by
  constructor
  · intro history extractedInfo
    simp [determineCallOutcome]
  · intro history reason hr
    have hstep : determineCallOutcome history emptyInfo reason =
        (if customerTurnCount history < 2 then str "no-answer"
         else if 5 < customerTurnCount history then str "interested"
         else str "not-interested") := by
      simp [determineCallOutcome, hr, emptyInfo, truthyS]
    refine ⟨fun hlt => ?_, fun hgt => ?_, fun hge hle => ?_⟩ <;>
      rw [hstep] <;> split_ifs <;> first | rfl | omega

/-- Witness for C1 at concrete inputs: the empty transcript with a
customer-requested end, then one, six and three customer turns with a
provider-signaled end. -/
theorem determineCallOutcome_priority_witness :
    determineCallOutcome [] emptyInfo (str "customer-requested") = str "not-interested" ∧
    determineCallOutcome [helloTurn] emptyInfo (str "provider-signaled-completion") =
      str "no-answer" ∧
    determineCallOutcome (List.replicate 6 helloTurn) emptyInfo
      (str "provider-signaled-completion") = str "interested" ∧
    determineCallOutcome (List.replicate 3 helloTurn) emptyInfo
      (str "provider-signaled-completion") = str "not-interested" := by
  refine ⟨determineCallOutcome_priority.1 [] emptyInfo, ?_, ?_, ?_⟩
  · exact (determineCallOutcome_priority.2 [helloTurn] _ (by decide)).1 (by decide)
  · exact (determineCallOutcome_priority.2 (List.replicate 6 helloTurn) _
      (by decide)).2.1 (by decide)
  · exact (determineCallOutcome_priority.2 (List.replicate 3 helloTurn) _
      (by decide)).2.2 (by decide) (by decide)

/-- Claim C2 (confirmed). The interested rule fires before the callback
rule: whenever the end reason is not customer-requested and the
next-steps signal is present (truthy), the resolver answers interested,
regardless of the transcript and of what the next-steps text says. -/
theorem determineCallOutcome_interested_precedes_callback :
    ∀ (history : List Turn) (extractedInfo : ExtractedInfo) (reason : Str),
      reason ≠ str "customer-requested" →
      truthyS extractedInfo.nextSteps = true →
      determineCallOutcome history extractedInfo reason = str "interested" := by
  intro history extractedInfo reason hr hn
  simp [determineCallOutcome, hr, hn]

/-- Witness for C2 at a concrete input whose next-steps text explicitly
mentions a callback request: the resolver still answers interested. -/
theorem determineCallOutcome_interested_precedes_callback_witness :
    determineCallOutcome []
      { emptyInfo with nextSteps := some (str "customer requested a callback") }
      (str "provider-signaled-completion") = str "interested" :=
  determineCallOutcome_interested_precedes_callback [] _ _ (by decide) (by decide)

/-- Claim C10 (confirmed). The resolver's range is contained in the four
labels not-interested, interested, callback, no-answer; it never
produces sale, voicemail or wrong-number, although all three belong to
the declared outcome enumeration of the call schema. -/
theorem determineCallOutcome_range :
    ∀ (history : List Turn) (extractedInfo : ExtractedInfo) (reason : Str),
      determineCallOutcome history extractedInfo reason ∈
        [str "not-interested", str "interested", str "callback", str "no-answer"] ∧
      determineCallOutcome history extractedInfo reason ≠ str "sale" ∧
      determineCallOutcome history extractedInfo reason ≠ str "voicemail" ∧
      determineCallOutcome history extractedInfo reason ≠ str "wrong-number" ∧
      str "sale" ∈ callOutcomeEnum ∧
      str "voicemail" ∈ callOutcomeEnum ∧
      str "wrong-number" ∈ callOutcomeEnum := by
  intro history extractedInfo reason
  have hmem : determineCallOutcome history extractedInfo reason ∈
      [str "not-interested", str "interested", str "callback", str "no-answer"] := by
    unfold determineCallOutcome
    split_ifs <;> simp
  have hall : ∀ x ∈ [str "not-interested", str "interested", str "callback",
      str "no-answer"],
      x ≠ str "sale" ∧ x ≠ str "voicemail" ∧ x ≠ str "wrong-number" := by decide
  obtain ⟨h1, h2, h3⟩ := hall _ hmem
  exact ⟨hmem, h1, h2, h3, by decide, by decide, by decide⟩

/-- Counterexample for C6. The claim says every rendered output is free
of literal placeholders; but a template holding only the unknown
placeholder nickname renders to itself, literal braces included. -/
theorem replacePlaceholders_unknown_left_literal :
    replacePlaceholders (str "\x7bnickname\x7d") anaLead = str "\x7bnickname\x7d" ∧
    hasPlaceholder (replacePlaceholders (str "\x7bnickname\x7d") anaLead) = true := by
  constructor <;> decide

/-- Claim C6 (corrected). The five known placeholders are substituted
from the lead record, absent optional fields becoming the empty string,
and the spec's concrete example renders as stated; but unknown
placeholders are left literally in the output, not replaced by the
empty string. -/
theorem replacePlaceholders_known_substitution :
    replacePlaceholders (str "Hi \x7bfirstName\x7d, is this \x7bfullName\x7d?") anaLead =
      str "Hi Ana, is this Ana Lee?" ∧
    replacePlaceholders (str "\x7bcompany\x7d\x7bjobTitle\x7d\x7blastName\x7d") bareLead =
      str "" ∧
    replacePlaceholders
      (str "\x7bfirstName\x7d \x7blastName\x7d \x7bcompany\x7d \x7bjobTitle\x7d") anaLead =
      str "Ana Lee  " ∧
    replacePlaceholders (str "\x7bnickname\x7d is unknown") anaLead =
      str "\x7bnickname\x7d is unknown" := by
  refine ⟨by decide, by decide, by decide, by decide⟩

/-- Claim C7 (confirmed). The lead feedback updater changes the score by
the fixed outcome delta table, adjusted five up for positive and five
down for negative overall sentiment, clamped to the zero..one hundred
range; and the wrong-number outcome on the default lead of score fifty
with no sentiment yields score twenty and a permanently non-callable
lead (do-not-call flag set, status do-not-call). -/
theorem updateScore_delta_table :
    (∀ (l : Lead) (outcome : Str) (sentiment : Option Sentiment) (now : Nat),
      (l.updateScore outcome sentiment now).score =
        max 0 (min 100 (l.score +
          ((if outcome = str "sale" then 30
            else if outcome = str "interested" then 20
            else if outcome = str "callback" then 10
            else if outcome = str "not-interested" then -15
            else if outcome = str "wrong-number" then -30
            else -5) +
           (match sentiment with
            | some sn =>
              if sn.overall = str "positive" then 5
              else if sn.overall = str "negative" then -5
              else 0
            | none => 0) : Int)))) ∧
    (demoLead.updateScore (str "wrong-number") none 7).score = 20 ∧
    (demoLead.updateScore (str "wrong-number") none 7).doNotCall = true ∧
    (demoLead.updateScore (str "wrong-number") none 7).status = str "do-not-call" ∧
    (demoLead.updateScore (str "wrong-number") none 7).isCallable = false := by
  refine ⟨?_, by decide, by decide, by decide, by decide⟩
  intro l outcome sentiment now
  unfold Lead.updateScore
  cases sentiment <;> split_ifs <;> simp

/-- Writing a key and reading it back yields the written value. -/
theorem getA_setA {α β : Type} [DecidableEq α] (m : List (α × β)) (k : α) (v : β) :
    getA (setA m k v) k = some v := by
  induction m with
  | nil => simp [getA, setA]
  | cons p rest ih =>
    by_cases h : p.1 = k
    · simp [getA, setA, h]
    · simp only [setA, if_neg h]
      simpa [getA, h] using ih

/-- Reading a deleted key yields nothing. -/
theorem getA_eraseA {α β : Type} [DecidableEq α] (m : List (α × β)) (k : α) :
    getA (eraseA m k) k = none := by
  induction m with
  | nil => rfl
  | cons p rest ih =>
    by_cases h : p.1 = k
    · rw [show eraseA (p :: rest) k = eraseA rest k by simp [eraseA, h]]
      exact ih
    · rw [show eraseA (p :: rest) k = p :: eraseA rest k by simp [eraseA, h]]
      rw [show getA (p :: eraseA rest k) k = getA (eraseA rest k) k by simp [getA, h]]
      exact ih

/-- Counterexample for C3. Invoked for a call sid with no active state,
the handler does not fail with an unknown-call error: it returns a
normal hangup response. -/
theorem handleCustomerSpeech_no_unknownCallError :
    (handleCustomerSpeech testEnv emptyState (str "CALL-X") (str "hello") 0).2 ≠
      SpeechResult.unknownCallError := by decide

/-- Claim C3 (corrected). A customer turn for a call sid with no active
conversation is rejected without creating any state — the whole state
(active map, calls, leads) is returned unchanged — but the rejection is
a polite hangup TwiML response, not an unknown-call error. -/
theorem handleCustomerSpeech_unknown_rejected :
    ∀ (env : Env) (st : State) (callSid customerSpeech : Str) (now : Nat),
      getA st.activeConversations callSid = none →
      handleCustomerSpeech env st callSid customerSpeech now =
        (st, SpeechResult.response (TwiML.hangup (str "Thank you for calling. Goodbye!"))) := by
  intro env st callSid customerSpeech now h
  simp [handleCustomerSpeech, handleSpeechPre, h]

/-- Witness for C3 at the spec's concrete input: the never-initialized
call sid CALL-X with the utterance hello, from the empty state. -/
theorem handleCustomerSpeech_unknown_rejected_witness :
    handleCustomerSpeech testEnv emptyState (str "CALL-X") (str "hello") 0 =
      (emptyState,
       SpeechResult.response (TwiML.hangup (str "Thank you for calling. Goodbye!"))) :=
  handleCustomerSpeech_unknown_rejected testEnv emptyState (str "CALL-X") (str "hello") 0 rfl

/-- Counterexample for C4. A second initialize for the same call sid is
not rejected with a duplicate-call error, and it does not leave the
existing state unchanged: initializing CALL-1 at time five and again at
time nine leaves a stored context whose start instant is nine. -/
theorem initializeConversation_no_duplicate_guard :
    (initializeConversation
        (initializeConversation emptyState (str "CALL-1") anaLead plainCampaign 5).1
        (str "CALL-1") anaLead plainCampaign 9).2 ≠ InitResult.duplicateCallError ∧
    (getA (initializeConversation
        (initializeConversation emptyState (str "CALL-1") anaLead plainCampaign 5).1
        (str "CALL-1") anaLead plainCampaign 9).1.activeConversations
        (str "CALL-1")).map Conv.startTime = some 9 := by
  constructor <;> decide

/-- Claim C4 (corrected). Initialize never fails: for every state,
including one that already holds a conversation for the call sid, it
overwrites the map entry with a freshly built context — empty
transcript, opening phase, the new start instant — and returns it. -/
theorem initializeConversation_overwrites :
    ∀ (st : State) (callSid : Str) (lead : Lead) (campaign : Campaign) (now : Nat),
      (initializeConversation st callSid lead campaign now).2 =
        InitResult.ok (mkConversationContext callSid lead campaign now) ∧
      getA (initializeConversation st callSid lead campaign now).1.activeConversations
        callSid = some (mkConversationContext callSid lead campaign now) ∧
      (mkConversationContext callSid lead campaign now).conversationHistory = [] ∧
      (mkConversationContext callSid lead campaign now).currentStep = str "opening" ∧
      (mkConversationContext callSid lead campaign now).startTime = now := by
  intro st callSid lead campaign now
  refine ⟨rfl, ?_, rfl, rfl, rfl⟩
  simp [initializeConversation, getA_setA]

/-- Filtering distributes over the append performed by a save. -/
theorem completedCount_append (calls more : List CallRecord) (callSid : Str) :
    completedCount (calls ++ more) callSid =
      completedCount calls callSid + completedCount more callSid := by
  simp [completedCount, List.filter_append]

/-- Claim C8 (confirmed). Finalizing a call removes its in-memory state
and persists exactly one completed record for it when it was active
(none when it was not); a second finalize afterwards returns the state
unchanged with no summary — a no-op that re-runs no side effects and
persists no second outcome. -/
theorem endConversation_idempotent :
    ∀ (env : Env) (st : State) (callSid reason reason2 : Str) (now now2 : Nat),
      endConversation env (endConversation env st callSid reason now).1
          callSid reason2 now2 =
        ((endConversation env st callSid reason now).1, none) ∧
      getA (endConversation env st callSid reason now).1.activeConversations
        callSid = none ∧
      completedCount (endConversation env st callSid reason now).1.calls callSid =
        completedCount st.calls callSid +
          (if (getA st.activeConversations callSid).isSome then 1 else 0) := by
  intro env st callSid reason reason2 now now2
  cases h : getA st.activeConversations callSid with
  | none =>
    have hst : (endConversation env st callSid reason now).1 = st := by
      simp [endConversation, h]
    rw [hst]
    refine ⟨by simp [endConversation, h], h, by simp [h]⟩
  | some conversation =>
    have hst : (endConversation env st callSid reason now).1 =
        { activeConversations := eraseA st.activeConversations callSid
          calls := st.calls ++
            [{ callSid := callSid
               campaignId := some conversation.campaignId
               leadId := some conversation.leadId
               phoneNumber := some conversation.lead.phoneNumber
               status := str "completed"
               startedAt := some conversation.startTime
               endedAt := some now
               duration := (now - conversation.startTime) * 3600
               conversation := conversation.conversationHistory
               sentimentR := some (env.analyzeSentiment conversation.conversationHistory)
               outcome := determineCallOutcome conversation.conversationHistory
                 (env.extractInformation conversation.conversationHistory) reason
               notes := some (env.generateCallSummary conversation.conversationHistory
                 (determineCallOutcome conversation.conversationHistory
                   (env.extractInformation conversation.conversationHistory) reason)
                 ((now - conversation.startTime) * 3600)) }]
          leads := setA st.leads conversation.leadId
            (updateLeadFromConversation conversation.lead
              (env.extractInformation conversation.conversationHistory)
              (determineCallOutcome conversation.conversationHistory
                (env.extractInformation conversation.conversationHistory) reason)
              (env.analyzeSentiment conversation.conversationHistory) now) } := by
      simp [endConversation, h]
    refine ⟨?_, ?_, ?_⟩
    · rw [hst]
      simp [endConversation, getA_eraseA]
    · rw [hst]
      exact getA_eraseA _ _
    · rw [hst]
      simp only [h, Option.isSome_some, if_true]
      rw [completedCount_append]
      simp [completedCount]

/-- Start state of the race scenario: CALL-1 initialized at time zero
for the Ana lead on the plain campaign. -/
def raceInitState : State :=
  (initializeConversation emptyState (str "CALL-1") anaLead plainCampaign 0).1

/-- End state of the race scenario: the customer says hello at time one
and the handler suspends awaiting the generator; the provider end
signal for CALL-1 is processed at time two, finalizing the call; the
late generator response is then handled at time three. -/
def raceFinalState : State :=
  raceScenario testEnv raceInitState (str "CALL-1") (str "hello") 1 2 3

/-- Claim C9 (refuted by the code; the spec states the intended
behaviour). In the race of spec section five the late generator
response is NOT discarded: after the call was finalized at time two
(the in-memory state is gone and the persisted record carries that end
instant), the resumed handler appends the agent turn at time three to
the stale conversation and re-persists it, leaving the single call
document reverted to in-progress with an orphaned agent turn after the
end marker. -/
theorem race_late_response_not_discarded :
    getA raceFinalState.activeConversations (str "CALL-1") = none ∧
    raceFinalState.calls.length = 1 ∧
    raceFinalState.calls.head?.map (fun r => r.status) = some (str "in-progress") ∧
    raceFinalState.calls.head?.map (fun r => r.endedAt) = some (some 2) ∧
    (raceFinalState.calls.head?.map
        (fun r => r.conversation.getLast?.map (fun t => (t.speaker, t.timestamp)))) =
      some (some (Speaker.agent, 3)) := by
  refine ⟨by decide, by decide, by decide, by decide, by decide⟩

end CallingAI
